import Mathlib

/-!
Verification of the trade-ticket lifecycle and reputation ledger of
`vouch_bot.py`.  The Python source keeps its state in three sqlite tables
(`trades`, `vouches`, `guild_config`); every state-changing handler is a
short sequence of reads (`get_trade`) and single-row writes
(`update_trade`, `add_vouch`).  We embed those rows as Lean structures and
every handler as a function on them, keeping the source's check order and
field updates.
-/

namespace VouchBot

set_option maxRecDepth 2048

/-- Status column of the `trades` table
(`pending|active|completed|declined|expired|cancelled`). -/
inductive Status
  | pending
  | active
  | completed
  | declined
  | expired
  | cancelled
deriving DecidableEq, Repr, Fintype

/-- Terminal statuses: the lifecycle is supposed to never leave them. -/
def Status.isTerminal : Status → Bool
  | .completed => true
  | .declined => true
  | .expired => true
  | .cancelled => true
  | _ => false

/-- A row of the `trades` table.  `channel_id`/`message_id` are the external
message reference (NULL until `set_trade_message` runs). -/
structure Trade where
  trade_id : String
  guild_id : Nat
  opener_id : Nat
  partner_id : Nat
  status : Status
  accepted : Bool
  opener_confirmed : Bool
  partner_confirmed : Bool
  channel_id : Option Nat
  message_id : Option Nat
  created_at : Int
deriving DecidableEq, Repr

/-- `TRADE_EXPIRE_SECONDS = 3 * 60 * 60`. -/
def TRADE_EXPIRE_SECONDS : Int := 3 * 60 * 60

/-- Row inserted by `create_trade`: status `pending`, all flags 0, message
reference NULL. -/
def newTrade (tid : String) (gid opener partner : Nat) (now : Int) : Trade :=
  { trade_id := tid
    guild_id := gid
    opener_id := opener
    partner_id := partner
    status := .pending
    accepted := false
    opener_confirmed := false
    partner_confirmed := false
    channel_id := none
    message_id := none
    created_at := now }

/-- `set_trade_message`: unconditionally records the posted message. -/
def set_trade_message (t : Trade) (ch mid : Nat) : Trade :=
  { t with channel_id := some ch, message_id := some mid }

/-- `PendingTradeView.accept`: requires status `pending` and the actor to be
the tagged partner, then writes `status='active', accepted=1`.  `none`
models the handler returning an ephemeral rejection without any write. -/
def accept (t : Trade) (actor : Nat) : Option Trade :=
  if t.status ≠ .pending then none
  else if actor ≠ t.partner_id then none
  else some { t with status := .active, accepted := true }

/-- `PendingTradeView.decline`: requires status `pending` and the partner,
then writes `status='declined'`. -/
def decline (t : Trade) (actor : Nat) : Option Trade :=
  if t.status ≠ .pending then none
  else if actor ≠ t.partner_id then none
  else some { t with status := .declined }

/-- `ActiveTradeView._refresh_or_finalize`: re-reads the trade and, when both
confirmation flags are set, writes `status='completed'`.  It checks only the
two flags, not the current status. -/
def refresh_or_finalize (t : Trade) : Trade :=
  if t.opener_confirmed && t.partner_confirmed then { t with status := .completed }
  else t

/-- `ActiveTradeView.confirm_opener` run to completion with no interleaving:
status must be `active` and the actor the opener; then the handler writes
`opener_confirmed=1` and runs `_refresh_or_finalize`. -/
def confirm_opener (t : Trade) (actor : Nat) : Option Trade :=
  if t.status ≠ .active then none
  else if actor ≠ t.opener_id then none
  else some (refresh_or_finalize { t with opener_confirmed := true })

/-- `ActiveTradeView.confirm_partner`, symmetric to `confirm_opener`. -/
def confirm_partner (t : Trade) (actor : Nat) : Option Trade :=
  if t.status ≠ .active then none
  else if actor ≠ t.partner_id then none
  else some (refresh_or_finalize { t with partner_confirmed := true })

/-- `ActiveTradeView.force_close`: requires only the staff permission check
and that the trade row exists; it then writes `status='cancelled'`
unconditionally — the handler never looks at the current status. -/
def force_close (t : Trade) (isStaff : Bool) : Option Trade :=
  if isStaff then some { t with status := .cancelled } else none

/-- One ticket's treatment by `expire_trades_loop`: the `find_expirable_trades`
query selects status in `(pending, active)`, `created_at <= now - TTL` and a
non-NULL message reference; the loop re-checks the status and writes
`status='expired'`.  `none` means the ticket is not touched. -/
def expire_step (t : Trade) (now : Int) : Option Trade :=
  if (t.status = .pending ∨ t.status = .active)
      ∧ t.created_at ≤ now - TRADE_EXPIRE_SECONDS
      ∧ t.channel_id.isSome ∧ t.message_id.isSome then
    some { t with status := .expired }
  else none

/-- One tick of `expire_trades_loop` over the whole table. -/
def expire_trades_once (store : List Trade) (now : Int) : List Trade :=
  store.map (fun t =>
    match expire_step t now with
    | some t1 => t1
    | none => t)

/-- Tier thresholds of a `guild_config` row (`thresh_new`, `thresh_verified`,
`thresh_trusted`; the `/set_thresholds` command only stores non-negative
values, so we use `Nat`). -/
structure TierCfg where
  thresh_new : Nat
  thresh_verified : Nat
  thresh_trusted : Nat
deriving DecidableEq, Repr

/-- Python's `v or d` on a non-negative integer column: the default kicks in
when the stored value is falsy, i.e. `0`. -/
def orDefault (v d : Nat) : Nat := if v = 0 then d else v

/-- The four labels `trader_tier_label` can produce. -/
inductive TierLabel
  | trusted
  | verified
  | newTrader
  | unranked
deriving DecidableEq, Repr

/-- Fallback branch of `trader_tier_label` (the pure classification used when
no tier role is attached to the member): thresholds are read with
`int(cfg[...] or default)` and checked trusted, then verified, then new. -/
def trader_tier_label (total : Nat) (cfg : TierCfg) : TierLabel :=
  if orDefault cfg.thresh_trusted 15 ≤ total then .trusted
  else if orDefault cfg.thresh_verified 5 ≤ total then .verified
  else if orDefault cfg.thresh_new 1 ≤ total then .newTrader
  else .unranked

/-- Validation and store of the `/set_thresholds` command: it requires
`0 <= new <= verified <= trusted` and otherwise rejects (`none`). -/
def set_thresholds (new verified trusted : Int) : Option TierCfg :=
  if 0 ≤ new ∧ new ≤ verified ∧ verified ≤ trusted then
    some ⟨new.toNat, verified.toNat, trusted.toNat⟩
  else none

/-- A row of the `vouches` table. -/
structure Vouch where
  guild_id : Nat
  trade_id : Option String
  target_id : Nat
  voucher_id : Nat
  stars : Nat
  note : Option String
  proof_url : Option String
  created_at : Int
deriving DecidableEq, Repr

/-- Key collision under the partial unique index
`idx_one_vouch_per_trade_per_voucher` on
`(guild_id, trade_id, voucher_id) WHERE trade_id IS NOT NULL`. -/
def vouchKeyClash (v w : Vouch) : Bool :=
  v.guild_id = w.guild_id && v.trade_id = w.trade_id
    && v.voucher_id = w.voucher_id && v.trade_id.isSome

/-- `add_vouch`: a plain INSERT; the store raises `IntegrityError` (here
`none`) exactly when the new row collides with an existing one under the
unique index. -/
def add_vouch (store : List Vouch) (v : Vouch) : Option (List Vouch) :=
  if store.any (vouchKeyClash v) then none else some (store ++ [v])

/-- `vouch_count`: rows for the target in this guild with a trade reference. -/
def vouch_count (store : List Vouch) (gid target : Nat) : Nat :=
  (store.filter (fun v => v.guild_id = gid && v.target_id = target && v.trade_id.isSome)).length

/-- `get_trade`: primary-key lookup in the `trades` table. -/
def get_trade (trades : List Trade) (tid : String) : Option Trade :=
  trades.find? (fun t => t.trade_id = tid)

/-- Outcomes of the `/vouch` command, one constructor per early return of the
handler (named after its user-facing message) plus success. -/
inductive VouchOutcome
  | botTarget
  | selfVouch
  | noVouchChannel
  | badVouchChannel
  | tradeNotFound
  | wrongGuild
  | notCompleted
  | notParticipant
  | notOtherParty
  | alreadyVouched
  | logged
deriving DecidableEq, Repr

/-- The `/vouch` command.  Checks in source order: target is a bot, self
vouch, vouch channel configured and valid, trade exists, trade belongs to
this guild, trade completed, author is a participant, author/target is
exactly the opener/partner pair; then inserts, mapping an `IntegrityError`
to the already-vouched rejection.  Returns the outcome together with the
resulting `vouches` table (`tradeId` is taken post `.strip().upper()`
normalisation). -/
def vouchCmd (trades : List Trade) (vouches : List Vouch) (gid : Nat)
    (authorId targetId : Nat) (targetIsBot : Bool)
    (channelSet channelValid : Bool)
    (tradeId : String) (stars : Nat) (note proof : Option String)
    (now : Int) : VouchOutcome × List Vouch :=
  if targetIsBot then (.botTarget, vouches)
  else if targetId = authorId then (.selfVouch, vouches)
  else if !channelSet then (.noVouchChannel, vouches)
  else if !channelValid then (.badVouchChannel, vouches)
  else
    match get_trade trades tradeId with
    | none => (.tradeNotFound, vouches)
    | some tr =>
      if tr.guild_id ≠ gid then (.wrongGuild, vouches)
      else if tr.status ≠ .completed then (.notCompleted, vouches)
      else if authorId ≠ tr.opener_id ∧ authorId ≠ tr.partner_id then (.notParticipant, vouches)
      else if ({authorId, targetId} : Finset Nat) ≠ {tr.opener_id, tr.partner_id} then
        (.notOtherParty, vouches)
      else
        match add_vouch vouches
            ⟨gid, some tradeId, targetId, authorId, stars, note, proof, now⟩ with
        | none => (.alreadyVouched, vouches)
        | some st => (.logged, st)

/-- `make_trade_id`: `"T-"` followed by six random characters; the random
draw is passed in as `suffix`. -/
def make_trade_id (suffix : String) : String := "T-" ++ suffix

/-- Failure modes of `/trade` and `create_trade`.  `integrityError` is the
uncaught `sqlite3.IntegrityError` a PRIMARY KEY collision of `trade_id`
would raise out of the plain INSERT. -/
inductive TradeCmdError
  | botPartner
  | selfTrade
  | noTradeChannel
  | badTradeChannel
  | integrityError
deriving DecidableEq, Repr

/-- `create_trade`: calls `make_trade_id()` exactly once (`gen 0` is the one
random draw; later draws are never consulted) and INSERTs.  There is no
pre-insert existence check and no retry: a colliding id surfaces as the
store's uniqueness error. -/
def create_trade (gen : Nat → String) (store : List Trade)
    (gid opener partner : Nat) (now : Int) :
    Except TradeCmdError (String × List Trade) :=
  if store.any (fun t => t.trade_id = make_trade_id (gen 0)) then .error .integrityError
  else .ok (make_trade_id (gen 0),
    store ++ [newTrade (make_trade_id (gen 0)) gid opener partner now])

/-- The `/trade` command: rejects a bot partner, then a self trade, then a
missing or invalid trade channel, then calls `create_trade`. -/
def tradeCmd (gen : Nat → String) (store : List Trade) (gid : Nat)
    (openerId partnerId : Nat) (partnerIsBot : Bool)
    (channelSet channelValid : Bool) (now : Int) :
    Except TradeCmdError (String × List Trade) :=
  if partnerIsBot then .error .botPartner
  else if partnerId = openerId then .error .selfTrade
  else if !channelSet then .error .noTradeChannel
  else if !channelValid then .error .badTradeChannel
  else create_trade gen store gid openerId partnerId now

/-- Rows of `top_traders` eligible for the leaderboard:
`guild_id = ? AND trade_id IS NOT NULL`. -/
def eligibleRows (rows : List Vouch) (gid : Nat) : List Vouch :=
  rows.filter (fun v => v.guild_id = gid && v.trade_id.isSome)

/-- Distinct `target_id` values in row-enumeration order (the order `GROUP BY`
hands groups to `ORDER BY`, which the query does not further pin down for
tied keys). -/
def targetsInOrder (rows : List Vouch) : List Nat :=
  rows.foldl (fun acc v => if v.target_id ∈ acc then acc else acc ++ [v.target_id]) []

/-- One leaderboard entry: `(target_id, COUNT(*), AVG(stars))`. -/
def traderEntry (rows : List Vouch) (t : Nat) : Nat × Nat × ℚ :=
  let s := rows.filter (fun v => v.target_id = t)
  (t, s.length,
    if s.length = 0 then 0
    else ((s.map (fun v => (v.stars : ℚ))).sum) / (s.length : ℚ))

/-- Sort order of `ORDER BY vouches DESC, avg_stars DESC`: `a` may precede
`b` when `a` has more vouches, or equally many and at least as high an
average.  There is no further key, so tied entries are unordered. -/
def leadOrder (a b : Nat × Nat × ℚ) : Prop :=
  b.2.1 < a.2.1 ∨ (a.2.1 = b.2.1 ∧ b.2.2 ≤ a.2.2)

instance : DecidableRel leadOrder := fun a b => by
  unfold leadOrder; infer_instance

instance : IsTotal (Nat × Nat × ℚ) leadOrder := by
  constructor
  intro a b
  rcases lt_trichotomy a.2.1 b.2.1 with h | h | h
  · exact Or.inr (Or.inl h)
  · rcases le_total b.2.2 a.2.2 with h2 | h2
    · exact Or.inl (Or.inr ⟨h, h2⟩)
    · exact Or.inr (Or.inr ⟨h.symm, h2⟩)
  · exact Or.inl (Or.inl h)

instance : IsTrans (Nat × Nat × ℚ) leadOrder := by
  constructor
  rintro a b c (h1 | ⟨h1, h1a⟩) (h2 | ⟨h2, h2a⟩)
  · exact Or.inl (h2.trans h1)
  · exact Or.inl (h2 ▸ h1)
  · exact Or.inl (h1 ▸ h2)
  · exact Or.inr ⟨h1.trans h2, h2a.trans h1a⟩

/-- `top_traders`: aggregate the eligible rows per target and order by
`(vouches DESC, avg_stars DESC) LIMIT ?`.  Where the two sort keys tie, the
query level leaves the order to the store; the embedding realises one such
store order — the row-enumeration order of the table — via a stable sort. -/
def top_traders (rows : List Vouch) (gid : Nat) (limit : Nat) :
    List (Nat × Nat × ℚ) :=
  let el := eligibleRows rows gid
  ((targetsInOrder el).map (traderEntry el)).insertionSort leadOrder |>.take limit

/-- Ticket states reachable through the handlers, one constructor per
state-changing operation of the source, run sequentially (each handler's
reads and writes uninterleaved). -/
inductive Reach : Trade → Prop
  | create (tid : String) (gid opener partner : Nat) (now : Int) :
      opener ≠ partner → Reach (newTrade tid gid opener partner now)
  | message {t : Trade} (ch mid : Nat) :
      Reach t → Reach (set_trade_message t ch mid)
  | acceptStep {t t1 : Trade} (actor : Nat) :
      Reach t → accept t actor = some t1 → Reach t1
  | declineStep {t t1 : Trade} (actor : Nat) :
      Reach t → decline t actor = some t1 → Reach t1
  | confirmOpenerStep {t t1 : Trade} (actor : Nat) :
      Reach t → confirm_opener t actor = some t1 → Reach t1
  | confirmPartnerStep {t t1 : Trade} (actor : Nat) :
      Reach t → confirm_partner t actor = some t1 → Reach t1
  | forceCloseStep {t t1 : Trade} (isStaff : Bool) :
      Reach t → force_close t isStaff = some t1 → Reach t1
  | expireStep {t t1 : Trade} (now : Int) :
      Reach t → expire_step t now = some t1 → Reach t1

/-- Store interactions of one confirm-button handler, in source order:
read the trade and check it (`check`), write the own confirmation flag
(`setFlag`), re-read inside `_refresh_or_finalize` (`readBack`), and, when
that read saw both flags, write `status='completed'` (`finalize`).  The
three `done` states record how the handler ended: rejected at the status
check, finished without the status write, or finished having written it. -/
inductive ConfirmPC
  | check
  | setFlag
  | readBack
  | finalize
  | doneRejected
  | doneNoFinalize
  | doneFinalized
deriving DecidableEq, Repr, Fintype

def ConfirmPC.isDone : ConfirmPC → Bool
  | .doneRejected => true
  | .doneNoFinalize => true
  | .doneFinalized => true
  | _ => false

/-- Shared state of two racing confirms on one ticket, projected to the
fields those handlers read or write: the status, the two flags, and each
handler's progress.  Both actors are the legitimate participants, so the
actor equality checks of the handlers pass and only the status check can
reject. -/
structure ConfirmRace where
  st : Status
  oConf : Bool
  pConf : Bool
  pcO : ConfirmPC
  pcP : ConfirmPC
deriving DecidableEq, Repr, Fintype

/-- One atomic store access of the opener's confirm handler. -/
def stepO (c : ConfirmRace) : ConfirmRace :=
  match c.pcO with
  | .check => if c.st = .active then { c with pcO := .setFlag } else { c with pcO := .doneRejected }
  | .setFlag => { c with oConf := true, pcO := .readBack }
  | .readBack =>
      if c.oConf && c.pConf then { c with pcO := .finalize } else { c with pcO := .doneNoFinalize }
  | .finalize => { c with st := .completed, pcO := .doneFinalized }
  | _ => c

/-- One atomic store access of the partner's confirm handler. -/
def stepP (c : ConfirmRace) : ConfirmRace :=
  match c.pcP with
  | .check => if c.st = .active then { c with pcP := .setFlag } else { c with pcP := .doneRejected }
  | .setFlag => { c with pConf := true, pcP := .readBack }
  | .readBack =>
      if c.oConf && c.pConf then { c with pcP := .finalize } else { c with pcP := .doneNoFinalize }
  | .finalize => { c with st := .completed, pcP := .doneFinalized }
  | _ => c

/-- Scheduler step: `true` runs the opener's next store access, `false` the
partner's. -/
def raceStep (c : ConfirmRace) (b : Bool) : ConfirmRace :=
  if b then stepO c else stepP c

/-- Run an interleaving given by a schedule. -/
def raceRun (c : ConfirmRace) : List Bool → ConfirmRace
  | [] => c
  | b :: rest => raceRun (raceStep c b) rest

/-- Number of steps of the schedule at which the ticket's status changes to
`completed`. -/
def completions (c : ConfirmRace) : List Bool → Nat
  | [] => 0
  | b :: rest =>
      (if (raceStep c b).st = .completed ∧ c.st ≠ .completed then 1 else 0)
        + completions (raceStep c b) rest

/-- Both confirms dispatched against an `active` ticket whose flags are
`oc`/`pc`. -/
def raceInit (oc pc : Bool) : ConfirmRace :=
  { st := .active, oConf := oc, pConf := pc, pcO := .check, pcP := .check }

def bothDone (c : ConfirmRace) : Bool :=
  c.pcO.isDone && c.pcP.isDone

/-- Inductive invariant of the race: the status stays in `{active,
completed}`; a handler past its flag write has its flag set; a handler that
decided to finalize saw (and thus keeps seeing) both flags; a rejected or
finalized handler implies the status is already `completed`; and the two
handlers cannot both have skipped the finalize. -/
def raceInv (c : ConfirmRace) : Bool :=
  (c.st = .active || c.st = .completed)
    && (!(c.pcO = .readBack || c.pcO = .finalize || c.pcO = .doneNoFinalize
          || c.pcO = .doneFinalized) || c.oConf)
    && (!(c.pcP = .readBack || c.pcP = .finalize || c.pcP = .doneNoFinalize
          || c.pcP = .doneFinalized) || c.pConf)
    && (!(c.pcO = .finalize) || (c.oConf && c.pConf))
    && (!(c.pcP = .finalize) || (c.oConf && c.pConf))
    && (!(c.pcO = .doneRejected) || c.st = .completed)
    && (!(c.pcP = .doneRejected) || c.st = .completed)
    && (!(c.pcO = .doneFinalized) || c.st = .completed)
    && (!(c.pcP = .doneFinalized) || c.st = .completed)
    && !(c.pcO = .doneNoFinalize && c.pcP = .doneNoFinalize)

/-- The uniqueness constraint of `idx_one_vouch_per_trade_per_voucher` as a
table invariant: no two rows clash. -/
def UniqueVouchKeys (store : List Vouch) : Prop :=
  store.Pairwise (fun v w => vouchKeyClash v w = false)

/-- A finished trade, as `_refresh_or_finalize` leaves it. -/
def tCompleted : Trade :=
  { trade_id := "T-DONE01"
    guild_id := 1
    opener_id := 10
    partner_id := 20
    status := .completed
    accepted := true
    opener_confirmed := true
    partner_confirmed := true
    channel_id := some 5
    message_id := some 6
    created_at := 0 }

/-- A store already holding the id `T-AAAAAA`. -/
def c7store : List Trade := [newTrade "T-AAAAAA" 1 5 6 0]

/-- A draw sequence whose first id collides with `c7store` and whose second
is fresh. -/
def c7gen : Nat → String := fun n => if n = 0 then "AAAAAA" else "BBBBBB"

/-- Two vouches for different targets with identical count and rating. -/
def c9v1 : Vouch := ⟨1, some "T-00001", 100, 6, 5, none, none, 0⟩

/-- Tied counterpart of `c9v1` for a second target. -/
def c9v2 : Vouch := ⟨1, some "T-00002", 200, 7, 5, none, none, 0⟩

/-- An existing vouch by the opener of `tCompleted` for its partner. -/
def c5dup : Vouch := ⟨1, some "T-DONE01", 20, 10, 5, none, none, 0⟩

/-- The ticket reached by create, post, accept, partner confirm, expiry:
`expired` with the partner's confirmation flag still set. -/
def c3final : Trade :=
  { trade_id := "T-C3EXP0"
    guild_id := 1
    opener_id := 10
    partner_id := 20
    status := .expired
    accepted := true
    opener_confirmed := false
    partner_confirmed := true
    channel_id := some 7
    message_id := some 8
    created_at := 0 }

/-- C6: `trader_tier_label` returns the highest tier whose (defaulted)
threshold is at most the vouch count, checked trusted, then verified, then
new, else unranked; a count of 0 always yields unranked; and with thresholds
`{new=1, verified=5, trusted=15}` the counts 0, 1, 4, 5, 14, 15 classify as
unranked, new, new, verified, verified, trusted. -/
theorem C6_tier_classification :
    (trader_tier_label 0 ⟨1, 5, 15⟩ = .unranked
      ∧ trader_tier_label 1 ⟨1, 5, 15⟩ = .newTrader
      ∧ trader_tier_label 4 ⟨1, 5, 15⟩ = .newTrader
      ∧ trader_tier_label 5 ⟨1, 5, 15⟩ = .verified
      ∧ trader_tier_label 14 ⟨1, 5, 15⟩ = .verified
      ∧ trader_tier_label 15 ⟨1, 5, 15⟩ = .trusted)
    ∧ (∀ cfg : TierCfg, trader_tier_label 0 cfg = .unranked)
    ∧ (∀ (cfg : TierCfg) (n : Nat),
        (orDefault cfg.thresh_trusted 15 ≤ n → trader_tier_label n cfg = .trusted)
        ∧ (n < orDefault cfg.thresh_trusted 15 → orDefault cfg.thresh_verified 5 ≤ n →
            trader_tier_label n cfg = .verified)
        ∧ (n < orDefault cfg.thresh_trusted 15 → n < orDefault cfg.thresh_verified 5 →
            orDefault cfg.thresh_new 1 ≤ n → trader_tier_label n cfg = .newTrader)
        ∧ (n < orDefault cfg.thresh_trusted 15 → n < orDefault cfg.thresh_verified 5 →
            n < orDefault cfg.thresh_new 1 → trader_tier_label n cfg = .unranked)) := by
  refine ⟨by decide, ?_, ?_⟩
  · intro cfg
    have h1 : ¬ orDefault cfg.thresh_trusted 15 ≤ 0 := by unfold orDefault; split <;> omega
    have h2 : ¬ orDefault cfg.thresh_verified 5 ≤ 0 := by unfold orDefault; split <;> omega
    have h3 : ¬ orDefault cfg.thresh_new 1 ≤ 0 := by unfold orDefault; split <;> omega
    simp [trader_tier_label, h1, h2, h3]
  · intro cfg n
    refine ⟨?_, ?_, ?_, ?_⟩
    · intro h; simp [trader_tier_label, h]
    · intro h1 h2; rw [trader_tier_label, if_neg (by omega), if_pos h2]
    · intro h1 h2 h3
      rw [trader_tier_label, if_neg (by omega), if_neg (by omega), if_pos h3]
    · intro h1 h2 h3
      rw [trader_tier_label, if_neg (by omega), if_neg (by omega), if_neg (by omega)]

/-- C6 witness: the tier characterisation applied at count 7 with stored
thresholds `{2, 6, 20}`. -/
theorem C6_tier_classification_witness :
    trader_tier_label 7 ⟨2, 6, 20⟩ = .verified :=
  (C6_tier_classification.2.2 ⟨2, 6, 20⟩ 7).2.1 (by decide) (by decide)

/-- C10: `/set_thresholds` accepts a zero threshold (it only requires
`0 <= new <= verified <= trusted`), but classification reads each stored
threshold through Python's `or`, so a stored 0 behaves exactly like the
default (1 for new, 5 for verified, 15 for trusted); in particular a user
with zero vouches is unranked even under a stored lowest threshold of 0. -/
theorem C10_zero_threshold_coercion :
    set_thresholds 0 5 15 = some ⟨0, 5, 15⟩
    ∧ (∀ (cfg : TierCfg) (n : Nat), cfg.thresh_new = 0 →
        trader_tier_label n cfg = trader_tier_label n { cfg with thresh_new := 1 })
    ∧ (∀ (cfg : TierCfg) (n : Nat), cfg.thresh_verified = 0 →
        trader_tier_label n cfg = trader_tier_label n { cfg with thresh_verified := 5 })
    ∧ (∀ (cfg : TierCfg) (n : Nat), cfg.thresh_trusted = 0 →
        trader_tier_label n cfg = trader_tier_label n { cfg with thresh_trusted := 15 })
    ∧ trader_tier_label 0 ⟨0, 5, 15⟩ = .unranked := by
  refine ⟨by decide, ?_, ?_, ?_, by decide⟩
  all_goals intro cfg n h
  all_goals simp [trader_tier_label, orDefault, h]

/-- C10 witness: coercion of a stored zero lowest threshold at count 0. -/
theorem C10_zero_threshold_coercion_witness :
    trader_tier_label 0 ⟨0, 5, 15⟩ = trader_tier_label 0 ⟨1, 5, 15⟩ :=
  C10_zero_threshold_coercion.2.1 ⟨0, 5, 15⟩ 0 rfl

/-- C8: the sweep turns a ticket to `expired` only when its status is
`pending` or `active` and at least `TRADE_EXPIRE_SECONDS` have passed since
`created_at`; a `completed` ticket is skipped with no write, so a sweep tick
leaves it unchanged. -/
theorem C8_expire_if_due :
    (∀ (t t1 : Trade) (now : Int), expire_step t now = some t1 →
        (t.status = .pending ∨ t.status = .active)
          ∧ TRADE_EXPIRE_SECONDS ≤ now - t.created_at
          ∧ t1 = { t with status := .expired })
    ∧ (∀ (t : Trade) (now : Int), t.status = .completed → expire_step t now = none)
    ∧ (∀ (t : Trade) (now : Int), t.status = .completed →
        expire_trades_once [t] now = [t]) := by
  refine ⟨?_, ?_, ?_⟩
  · intro t t1 now h
    unfold expire_step at h
    split at h
    · rename_i hc
      exact ⟨hc.1, by omega, by injection h with h1; exact h1.symm⟩
    · exact absurd h (by simp)
  · intro t now h
    unfold expire_step
    rw [if_neg]
    rintro ⟨h1 | h1, -⟩ <;> rw [h] at h1 <;> cases h1
  · intro t now h
    unfold expire_trades_once
    have h2 : expire_step t now = none := by
      unfold expire_step
      rw [if_neg]
      rintro ⟨h1 | h1, -⟩ <;> rw [h] at h1 <;> cases h1
    simp [h2]

/-- C8 witness: a sweep at any late time leaves the completed ticket
`tCompleted` untouched. -/
theorem C8_expire_if_due_witness :
    expire_step tCompleted 99999999 = none
      ∧ expire_trades_once [tCompleted] 99999999 = [tCompleted] :=
  ⟨C8_expire_if_due.2.1 tCompleted 99999999 rfl,
   C8_expire_if_due.2.2 tCompleted 99999999 rfl⟩

/-- C2 counterexample: `force_close` does not check the current status, so
applied (by staff) to the already-completed ticket `tCompleted` it succeeds
and rewrites the terminal status to `cancelled`, contradicting both that no
operation changes a terminal status and that forceClose succeeds only on
non-terminal tickets. -/
theorem C2_force_close_terminal_counterexample :
    tCompleted.status.isTerminal = true
    ∧ force_close tCompleted true = some { tCompleted with status := .cancelled }
    ∧ (force_close tCompleted true).map Trade.status ≠ some tCompleted.status := by
  refine ⟨rfl, rfl, by decide⟩

/-- C2 amended: accept, decline, the two confirms and the expiry sweep all
reject a ticket in a terminal status and leave it unchanged; `force_close`,
however, checks only the staff capability and the row's existence, and moves
any ticket — terminal or not — to `cancelled`. -/
theorem C2_terminal_transitions_amended (t : Trade) (a : Nat) (now : Int)
    (h : t.status.isTerminal = true) :
    accept t a = none ∧ decline t a = none ∧ confirm_opener t a = none
      ∧ confirm_partner t a = none ∧ expire_step t now = none
      ∧ force_close t true = some { t with status := .cancelled } := by
  have hp : t.status ≠ .pending := by
    intro hx; rw [hx] at h; cases h
  have ha : t.status ≠ .active := by
    intro hx; rw [hx] at h; cases h
  refine ⟨?_, ?_, ?_, ?_, ?_, rfl⟩
  · unfold accept; rw [if_pos hp]
  · unfold decline; rw [if_pos hp]
  · unfold confirm_opener; rw [if_pos ha]
  · unfold confirm_partner; rw [if_pos ha]
  · unfold expire_step
    rw [if_neg]
    rintro ⟨h1 | h1, -⟩
    · exact hp h1
    · exact ha h1

/-- C2 amended witness: the amended statement applied to `tCompleted`. -/
theorem C2_terminal_transitions_amended_witness :
    accept tCompleted 20 = none
      ∧ force_close tCompleted true = some { tCompleted with status := .cancelled } :=
  ⟨(C2_terminal_transitions_amended tCompleted 20 0 rfl).1,
   (C2_terminal_transitions_amended tCompleted 20 0 rfl).2.2.2.2.2⟩

/-- C7 counterexample: `create_trade` calls `make_trade_id` once and INSERTs
with no existence check.  With the store `c7store` and draw sequence
`c7gen`, the very next draw (`T-BBBBBB`) is fresh, so a single regeneration
would have succeeded; instead the call surfaces the store's uniqueness
error — there are no bounded retries. -/
theorem C7_no_id_retry_counterexample :
    c7store.all (fun t => t.trade_id ≠ make_trade_id (c7gen 1)) = true
    ∧ create_trade c7gen c7store 1 7 8 0 = .error .integrityError := by
  exact ⟨by decide, rfl⟩

/-- C7 amended: `/trade` rejects a bot partner and a self trade; a fresh
one-shot draw creates the pending ticket and the returned id is unique in
the store (because the store enforces id uniqueness), but a colliding draw
is an immediate uniqueness error with no regeneration. -/
theorem C7_create_trade_amended (gen : Nat → String) (store : List Trade)
    (gid o p : Nat) (bot chS chV : Bool) (now : Int) :
    (bot = true → tradeCmd gen store gid o p bot chS chV now = .error .botPartner)
    ∧ (bot = false → p = o → tradeCmd gen store gid o p bot chS chV now = .error .selfTrade)
    ∧ (store.any (fun t => t.trade_id = make_trade_id (gen 0)) = false →
        create_trade gen store gid o p now
          = .ok (make_trade_id (gen 0),
              store ++ [newTrade (make_trade_id (gen 0)) gid o p now]))
    ∧ (store.any (fun t => t.trade_id = make_trade_id (gen 0)) = true →
        create_trade gen store gid o p now = .error .integrityError)
    ∧ (∀ (tid : String) (store1 : List Trade),
        create_trade gen store gid o p now = .ok (tid, store1) →
        store.any (fun t => t.trade_id = tid) = false
          ∧ (store1.filter (fun t => t.trade_id = tid)).length = 1) := by
  refine ⟨?_, ?_, ?_, ?_, ?_⟩
  · intro h; simp [tradeCmd, h]
  · intro h1 h2; simp [tradeCmd, h1, h2]
  · intro h; simp [create_trade, h]
  · intro h; simp [create_trade, h]
  · intro tid store1 h
    unfold create_trade at h
    split at h
    · cases h
    · rename_i hdup
      injection h with h1
      injection h1 with h1 h2
      subst h1; subst h2
      have hdup1 : store.any (fun t => t.trade_id = make_trade_id (gen 0)) = false := by
        exact Bool.of_not_eq_true hdup
      refine ⟨hdup1, ?_⟩
      rw [List.filter_append]
      have hempty : store.filter (fun t => t.trade_id = make_trade_id (gen 0)) = [] := by
        rw [List.filter_eq_nil_iff]
        intro t ht hmem
        have hany : store.any (fun t => t.trade_id = make_trade_id (gen 0)) = true :=
          List.any_eq_true.mpr ⟨t, ht, by simpa using hmem⟩
        rw [hdup1] at hany
        cases hany
      rw [hempty]
      simp [newTrade]

/-- C7 amended witness: a bot partner is rejected, and the colliding draw of
`c7gen` over `c7store` yields the uniqueness error. -/
theorem C7_create_trade_amended_witness :
    tradeCmd c7gen [] 1 7 9 true true true 0 = .error .botPartner
    ∧ create_trade c7gen c7store 1 7 9 0 = .error .integrityError :=
  ⟨(C7_create_trade_amended c7gen [] 1 7 9 true true true 0).1 rfl,
   (C7_create_trade_amended c7gen c7store 1 7 9 false true true 0).2.2.2.1 (by decide)⟩

/-- C9 counterexample: the leaderboard query orders only by
`(vouches DESC, avg_stars DESC)`; `c9v1` and `c9v2` give two targets with
identical count and average, and the same two rows enumerated in the other
order — identical data — produce the opposite leaderboard order, so no
stable secondary key pins the result. -/
theorem C9_leaderboard_tie_counterexample :
    [c9v1, c9v2].Perm [c9v2, c9v1]
    ∧ top_traders [c9v1, c9v2] 1 10 = [(100, 1, 5), (200, 1, 5)]
    ∧ top_traders [c9v2, c9v1] 1 10 = [(200, 1, 5), (100, 1, 5)]
    ∧ top_traders [c9v1, c9v2] 1 10 ≠ top_traders [c9v2, c9v1] 1 10 := by
  have e1 : top_traders [c9v1, c9v2] 1 10 = [(100, 1, 5), (200, 1, 5)] := by
    norm_num [top_traders, eligibleRows, targetsInOrder, traderEntry,
      List.insertionSort, List.orderedInsert, leadOrder, c9v1, c9v2]
  have e2 : top_traders [c9v2, c9v1] 1 10 = [(200, 1, 5), (100, 1, 5)] := by
    norm_num [top_traders, eligibleRows, targetsInOrder, traderEntry,
      List.insertionSort, List.orderedInsert, leadOrder, c9v1, c9v2]
  refine ⟨List.Perm.swap c9v2 c9v1 [], e1, e2, ?_⟩
  rw [e1, e2]
  intro h
  injection h with h1
  injection h1 with h2
  cases h2

/-- C9 amended: the leaderboard is sorted by vouch count descending, then
average rating descending; entries tied on both keys appear in an order the
query leaves to the store's row enumeration, with no secondary key. -/
theorem C9_leaderboard_sorted_amended (rows : List Vouch) (gid limit : Nat) :
    (top_traders rows gid limit).Sorted leadOrder := by
  unfold top_traders
  exact (List.sorted_insertionSort leadOrder _).sublist (List.take_sublist _ _)

/-- C4: with a non-bot target, a non-self vouch, and the vouch channel
configured, `/vouch` records the feedback only if the trade id exists, the
trade belongs to the caller's guild, its status is `completed`, the author
is one of the two participants, and author/target are exactly the
opener/partner pair; each failing check produces its own rejection — not
found, wrong server, not completed, not a participant, not the other
party — and leaves the `vouches` table untouched. -/
theorem C4_vouch_eligibility (trades : List Trade) (vouches : List Vouch)
    (gid authorId targetId : Nat) (tradeId : String) (stars : Nat)
    (note proof : Option String) (now : Int)
    (hself : targetId ≠ authorId) :
    ((vouchCmd trades vouches gid authorId targetId false true true tradeId
        stars note proof now).1 = .logged →
      ∃ tr, get_trade trades tradeId = some tr ∧ tr.guild_id = gid
        ∧ tr.status = .completed
        ∧ (authorId = tr.opener_id ∨ authorId = tr.partner_id)
        ∧ ({authorId, targetId} : Finset Nat) = {tr.opener_id, tr.partner_id})
    ∧ (get_trade trades tradeId = none →
        vouchCmd trades vouches gid authorId targetId false true true tradeId
          stars note proof now = (.tradeNotFound, vouches))
    ∧ (∀ tr, get_trade trades tradeId = some tr → tr.guild_id ≠ gid →
        vouchCmd trades vouches gid authorId targetId false true true tradeId
          stars note proof now = (.wrongGuild, vouches))
    ∧ (∀ tr, get_trade trades tradeId = some tr → tr.guild_id = gid →
        tr.status ≠ .completed →
        vouchCmd trades vouches gid authorId targetId false true true tradeId
          stars note proof now = (.notCompleted, vouches))
    ∧ (∀ tr, get_trade trades tradeId = some tr → tr.guild_id = gid →
        tr.status = .completed → authorId ≠ tr.opener_id → authorId ≠ tr.partner_id →
        vouchCmd trades vouches gid authorId targetId false true true tradeId
          stars note proof now = (.notParticipant, vouches))
    ∧ (∀ tr, get_trade trades tradeId = some tr → tr.guild_id = gid →
        tr.status = .completed → (authorId = tr.opener_id ∨ authorId = tr.partner_id) →
        ({authorId, targetId} : Finset Nat) ≠ {tr.opener_id, tr.partner_id} →
        vouchCmd trades vouches gid authorId targetId false true true tradeId
          stars note proof now = (.notOtherParty, vouches))
    ∧ ((vouchCmd trades vouches gid authorId targetId false true true tradeId
          stars note proof now).1 ≠ .logged →
        (vouchCmd trades vouches gid authorId targetId false true true tradeId
          stars note proof now).2 = vouches) := by
  refine ⟨?_, ?_, ?_, ?_, ?_, ?_, ?_⟩
  · intro h
    unfold vouchCmd at h
    rw [if_neg (by simp), if_neg (by simpa using hself), if_neg (by simp),
      if_neg (by simp)] at h
    split at h
    · simp at h
    · rename_i tr heq
      refine ⟨tr, heq, ?_⟩
      split at h
      · simp at h
      · split at h
        · simp at h
        · split at h
          · simp at h
          · split at h
            · simp at h
            · rename_i h1 h2 h3 h4
              refine ⟨by tauto, by tauto, by tauto, by tauto⟩
  · intro h
    unfold vouchCmd
    rw [if_neg (by simp), if_neg (by simpa using hself), if_neg (by simp),
      if_neg (by simp), h]
  · intro tr h1 h2
    unfold vouchCmd
    rw [if_neg (by simp), if_neg (by simpa using hself), if_neg (by simp),
      if_neg (by simp), h1]
    dsimp only
    rw [if_pos h2]
  · intro tr h1 h2 h3
    unfold vouchCmd
    rw [if_neg (by simp), if_neg (by simpa using hself), if_neg (by simp),
      if_neg (by simp), h1]
    dsimp only
    rw [if_neg (by simpa using h2), if_pos h3]
  · intro tr h1 h2 h3 h4 h5
    unfold vouchCmd
    rw [if_neg (by simp), if_neg (by simpa using hself), if_neg (by simp),
      if_neg (by simp), h1]
    dsimp only
    rw [if_neg (by simpa using h2), if_neg (by simpa using h3), if_pos ⟨h4, h5⟩]
  · intro tr h1 h2 h3 h4 h5
    unfold vouchCmd
    rw [if_neg (by simp), if_neg (by simpa using hself), if_neg (by simp),
      if_neg (by simp), h1]
    dsimp only
    rw [if_neg (by simpa using h2), if_neg (by simpa using h3),
      if_neg (by tauto), if_pos h5]
  · intro h
    have halt : (vouchCmd trades vouches gid authorId targetId false true true tradeId
          stars note proof now).1 = .logged
        ∨ (vouchCmd trades vouches gid authorId targetId false true true tradeId
          stars note proof now).2 = vouches := by
      unfold vouchCmd
      rw [if_neg (by simp)]
      split
      · right; rfl
      · rw [if_neg (by simp), if_neg (by simp)]
        split
        · right; rfl
        · split
          · right; rfl
          · split
            · right; rfl
            · split
              · right; rfl
              · split
                · right; rfl
                · split
                  · right; rfl
                  · left; rfl
    rcases halt with h1 | h1
    · exact absurd h1 h
    · exact h1

/-- C4 witness: an empty trade table makes the vouch fail as not found with
the store untouched. -/
theorem C4_vouch_eligibility_witness :
    vouchCmd [] [] 1 10 20 false true true "T-NOPE01" 5 none none 0
      = (.tradeNotFound, []) :=
  (C4_vouch_eligibility [] [] 1 10 20 "T-NOPE01" 5 none none 0 (by decide)).2.1 rfl

/-- The clash predicate of the vouch uniqueness index is symmetric. -/
theorem vouchKeyClash_symm (v w : Vouch) : vouchKeyClash v w = vouchKeyClash w v := by
  by_cases h1 : v.guild_id = w.guild_id <;> by_cases h2 : v.trade_id = w.trade_id <;>
    by_cases h3 : v.voucher_id = w.voucher_id <;>
    simp [vouchKeyClash, h1, h2, h3, eq_comm]

/-- C5: the store-level uniqueness index keeps the `vouches` table free of
duplicate `(guild, trade, author)` keys across any `/vouch` call; when a
vouch by the same author for the same trade already exists, the call can
never log a new entry and leaves the table (hence every count) unchanged,
and under the eligibility checks that let a first vouch through it is
rejected precisely as already-vouched. -/
theorem C5_vouch_uniqueness :
    (∀ (trades : List Trade) (vouches : List Vouch) (gid a t : Nat) (bot chS chV : Bool)
        (tid : String) (stars : Nat) (note proof : Option String) (now : Int),
        UniqueVouchKeys vouches →
        UniqueVouchKeys
          (vouchCmd trades vouches gid a t bot chS chV tid stars note proof now).2)
    ∧ (∀ (trades : List Trade) (vouches : List Vouch) (gid a t : Nat) (tid : String)
        (stars : Nat) (note proof : Option String) (now : Int),
        (∃ v ∈ vouches, v.guild_id = gid ∧ v.trade_id = some tid ∧ v.voucher_id = a) →
        (vouchCmd trades vouches gid a t false true true tid stars note proof now).1
            ≠ .logged
          ∧ (vouchCmd trades vouches gid a t false true true tid stars note proof now).2
            = vouches
          ∧ ∀ target,
              vouch_count
                (vouchCmd trades vouches gid a t false true true tid
                  stars note proof now).2 gid target
                = vouch_count vouches gid target)
    ∧ (∀ (trades : List Trade) (vouches : List Vouch) (gid a t : Nat) (tid : String)
        (stars : Nat) (note proof : Option String) (now : Int) (tr : Trade),
        t ≠ a →
        get_trade trades tid = some tr → tr.guild_id = gid → tr.status = .completed →
        ¬(a ≠ tr.opener_id ∧ a ≠ tr.partner_id) →
        ({a, t} : Finset Nat) = {tr.opener_id, tr.partner_id} →
        (∃ v ∈ vouches, v.guild_id = gid ∧ v.trade_id = some tid ∧ v.voucher_id = a) →
        vouchCmd trades vouches gid a t false true true tid stars note proof now
          = (.alreadyVouched, vouches)) := by
  have hadd : ∀ (vouches : List Vouch) (gid a t : Nat) (tid : String) (stars : Nat)
      (note proof : Option String) (now : Int),
      (∃ v ∈ vouches, v.guild_id = gid ∧ v.trade_id = some tid ∧ v.voucher_id = a) →
      add_vouch vouches ⟨gid, some tid, t, a, stars, note, proof, now⟩ = none := by
    intro vouches gid a t tid stars note proof now hdup
    unfold add_vouch
    rw [if_pos]
    apply List.any_eq_true.mpr
    rcases hdup with ⟨v, hv, h1, h2, h3⟩
    exact ⟨v, hv, by simp [vouchKeyClash, h1, h2, h3]⟩
  refine ⟨?_, ?_, ?_⟩
  · intro trades vouches gid a t bot chS chV tid stars note proof now hu
    unfold vouchCmd
    split
    · exact hu
    · split
      · exact hu
      · split
        · exact hu
        · split
          · exact hu
          · split
            · exact hu
            · split
              · exact hu
              · split
                · exact hu
                · split
                  · exact hu
                  · split
                    · exact hu
                    · split
                      · exact hu
                      · rename_i st heq
                        unfold add_vouch at heq
                        split at heq
                        · cases heq
                        · rename_i hany
                          injection heq with heq
                          subst heq
                          unfold UniqueVouchKeys at hu ⊢
                          rw [List.pairwise_append]
                          refine ⟨hu, List.pairwise_singleton _ _, ?_⟩
                          intro x hx y hy
                          rw [List.mem_singleton] at hy
                          subst hy
                          rw [vouchKeyClash_symm]
                          rcases hb : vouchKeyClash
                              ⟨gid, some tid, t, a, stars, note, proof, now⟩ x
                          · rfl
                          · exact absurd (List.any_eq_true.mpr ⟨x, hx, hb⟩) hany
  · intro trades vouches gid a t tid stars note proof now hdup
    have hmain :
        (vouchCmd trades vouches gid a t false true true tid stars note proof now).1
            ≠ .logged
          ∧ (vouchCmd trades vouches gid a t false true true tid
              stars note proof now).2 = vouches := by
      unfold vouchCmd
      rw [if_neg (by simp)]
      split
      · exact ⟨by simp, rfl⟩
      · rw [if_neg (by simp), if_neg (by simp)]
        split
        · exact ⟨by simp, rfl⟩
        · split
          · exact ⟨by simp, rfl⟩
          · split
            · exact ⟨by simp, rfl⟩
            · split
              · exact ⟨by simp, rfl⟩
              · split
                · exact ⟨by simp, rfl⟩
                · split
                  · exact ⟨by simp, rfl⟩
                  · rename_i st heq
                    rw [hadd vouches gid a t tid stars note proof now hdup] at heq
                    cases heq
    exact ⟨hmain.1, hmain.2, fun target => by rw [hmain.2]⟩
  · intro trades vouches gid a t tid stars note proof now tr hself h1 h2 h3 h4 h5 hdup
    unfold vouchCmd
    rw [if_neg (by simp), if_neg (by simpa using fun hx : t = a => hself hx),
      if_neg (by simp), if_neg (by simp), h1]
    dsimp only
    rw [if_neg (by simpa using h2), if_neg (by simpa using h3), if_neg h4,
      if_neg (by simp [h5]), hadd vouches gid a t tid stars note proof now hdup]

/-- C5 witness: a second vouch by the opener of `tCompleted` for its partner
is rejected as already vouched and leaves the single existing entry alone. -/
theorem C5_vouch_uniqueness_witness :
    vouchCmd [tCompleted] [c5dup] 1 10 20 false true true "T-DONE01" 4 none none 1
      = (.alreadyVouched, [c5dup]) :=
  C5_vouch_uniqueness.2.2 [tCompleted] [c5dup] 1 10 20 "T-DONE01" 4 none none 1
    tCompleted (by decide) (by decide) rfl rfl (by decide) (by decide)
    ⟨c5dup, by simp, rfl, rfl, rfl⟩

/-- C3 counterexample: the handlers never reset confirmation flags, so the
reachable ticket `c3final` — created, posted, accepted, partner-confirmed,
then swept as overdue — has status `expired` (neither `active` nor
`completed`) while `partner_confirmed` is still true. -/
theorem C3_flags_survive_expiry_counterexample :
    Reach c3final ∧ c3final.status ≠ .active ∧ c3final.status ≠ .completed
      ∧ c3final.partner_confirmed = true := by
  refine ⟨?_, by decide, by decide, rfl⟩
  have h0 : Reach (newTrade "T-C3EXP0" 1 10 20 0) :=
    Reach.create "T-C3EXP0" 1 10 20 0 (by decide)
  have h1 : Reach (set_trade_message (newTrade "T-C3EXP0" 1 10 20 0) 7 8) :=
    Reach.message 7 8 h0
  have h2 : Reach
      { trade_id := "T-C3EXP0", guild_id := 1, opener_id := 10, partner_id := 20,
        status := .active, accepted := true, opener_confirmed := false,
        partner_confirmed := false, channel_id := some 7, message_id := some 8,
        created_at := 0 } :=
    Reach.acceptStep 20 h1 (by decide)
  have h3 : Reach
      { trade_id := "T-C3EXP0", guild_id := 1, opener_id := 10, partner_id := 20,
        status := .active, accepted := true, opener_confirmed := false,
        partner_confirmed := true, channel_id := some 7, message_id := some 8,
        created_at := 0 } :=
    Reach.confirmPartnerStep 20 h2 (by decide)
  exact Reach.expireStep 10800 h3 (by decide)

/-- C3 amended: in every reachable ticket state the confirmation flags are
false while the status is `pending` or `declined`; but flags set during the
active phase are not cleared by expiry or force close, and because the flag
write and the finalize write of a confirm are separate store writes, the
state with both flags true and status still `active` is observable between
them (after the schedule check, flag, check, flag of the two confirms). -/
theorem C3_confirmation_flags_amended :
    (∀ t : Trade, Reach t → t.status = .pending ∨ t.status = .declined →
        t.opener_confirmed = false ∧ t.partner_confirmed = false)
    ∧ (raceRun (raceInit false false) [true, true, false, false]).st = .active
    ∧ (raceRun (raceInit false false) [true, true, false, false]).oConf = true
    ∧ (raceRun (raceInit false false) [true, true, false, false]).pConf = true := by
  refine ⟨?_, rfl, rfl, rfl⟩
  intro t h
  induction h with
  | create tid gid opener partner now hne => intro hst; exact ⟨rfl, rfl⟩
  | message ch mid h ih => intro hst; exact ih hst
  | acceptStep actor h heq ih =>
      intro hst
      unfold accept at heq
      split at heq
      · cases heq
      · split at heq
        · cases heq
        · injection heq with heq
          subst heq
          rcases hst with hst | hst <;> cases hst
  | declineStep actor h heq ih =>
      intro hst
      unfold decline at heq
      split at heq
      · cases heq
      · split at heq
        · cases heq
        · rename_i h1 h2
          injection heq with heq
          subst heq
          exact ih (Or.inl (not_not.mp h1))
  | confirmOpenerStep actor h heq ih =>
      intro hst
      unfold confirm_opener at heq
      split at heq
      · cases heq
      · split at heq
        · cases heq
        · rename_i h1 h2
          injection heq with heq
          subst heq
          revert hst
          unfold refresh_or_finalize
          split
          · rintro (hst | hst) <;> cases hst
          · have ha := not_not.mp h1
            rintro (hst | hst) <;> simp only [] at hst <;> rw [ha] at hst <;> cases hst
  | confirmPartnerStep actor h heq ih =>
      intro hst
      unfold confirm_partner at heq
      split at heq
      · cases heq
      · split at heq
        · cases heq
        · rename_i h1 h2
          injection heq with heq
          subst heq
          revert hst
          unfold refresh_or_finalize
          split
          · rintro (hst | hst) <;> cases hst
          · have ha := not_not.mp h1
            rintro (hst | hst) <;> simp only [] at hst <;> rw [ha] at hst <;> cases hst
  | forceCloseStep isStaff h heq ih =>
      intro hst
      unfold force_close at heq
      split at heq
      · injection heq with heq
        subst heq
        rcases hst with hst | hst <;> cases hst
      · cases heq
  | expireStep now h heq ih =>
      intro hst
      unfold expire_step at heq
      split at heq
      · injection heq with heq
        subst heq
        rcases hst with hst | hst <;> cases hst
      · cases heq

/-- C3 amended witness: a freshly created (pending) ticket has both flags
false. -/
theorem C3_confirmation_flags_amended_witness :
    (newTrade "T-WITNS3" 1 2 3 0).opener_confirmed = false
      ∧ (newTrade "T-WITNS3" 1 2 3 0).partner_confirmed = false :=
  C3_confirmation_flags_amended.1 _ (Reach.create "T-WITNS3" 1 2 3 0 (by decide))
    (Or.inl rfl)

/-- One scheduler step preserves the race invariant. -/
theorem raceInv_step (c : ConfirmRace) (b : Bool) :
    raceInv c = true → raceInv (raceStep c b) = true := by
  rcases c with ⟨st, oc, pc, pcO, pcP⟩
  cases b <;> cases st <;> cases oc <;> cases pc <;> cases pcO <;> cases pcP <;> decide

/-- Any schedule preserves the race invariant. -/
theorem raceInv_run (sched : List Bool) :
    ∀ c : ConfirmRace, raceInv c = true → raceInv (raceRun c sched) = true := by
  induction sched with
  | nil => intro c h; exact h
  | cons b rest ih => intro c h; exact ih _ (raceInv_step c b h)

/-- The initial race configuration satisfies the invariant. -/
theorem raceInv_init : ∀ oc pc : Bool, raceInv (raceInit oc pc) = true := by decide

/-- Under the invariant, both handlers being done forces status `completed`. -/
theorem raceInv_done_completed (c : ConfirmRace) :
    raceInv c = true → bothDone c = true → c.st = .completed := by
  rcases c with ⟨st, oc, pc, pcO, pcP⟩
  cases st <;> cases oc <;> cases pc <;> cases pcO <;> cases pcP <;> decide

/-- Once `completed`, no step changes the status. -/
theorem raceStep_completed (c : ConfirmRace) (b : Bool) :
    c.st = .completed → (raceStep c b).st = .completed := by
  rcases c with ⟨st, oc, pc, pcO, pcP⟩
  cases b <;> cases st <;> cases oc <;> cases pc <;> cases pcO <;> cases pcP <;> decide

/-- From `active`, one step leaves the status `active` or `completed`. -/
theorem raceStep_active (c : ConfirmRace) (b : Bool) :
    c.st = .active → (raceStep c b).st = .active ∨ (raceStep c b).st = .completed := by
  rcases c with ⟨st, oc, pc, pcO, pcP⟩
  cases b <;> cases st <;> cases oc <;> cases pc <;> cases pcO <;> cases pcP <;> decide

/-- From a completed configuration a schedule adds no completion events. -/
theorem completions_of_completed (sched : List Bool) :
    ∀ c : ConfirmRace, c.st = .completed →
      completions c sched = 0 ∧ (raceRun c sched).st = .completed := by
  induction sched with
  | nil => intro c h; exact ⟨rfl, h⟩
  | cons b rest ih =>
      intro c h
      have h1 := raceStep_completed c b h
      have h2 := ih _ h1
      refine ⟨?_, h2.2⟩
      simp only [completions]
      rw [if_neg (by simp [h]), h2.1]

/-- From an active configuration, the number of completion events equals one
exactly when the schedule ends completed. -/
theorem completions_of_active (sched : List Bool) :
    ∀ c : ConfirmRace, c.st = .active →
      completions c sched
        = (if (raceRun c sched).st = .completed then 1 else 0) := by
  induction sched with
  | nil =>
      intro c h
      simp only [completions, raceRun]
      rw [if_neg (by simp [h])]
  | cons b rest ih =>
      intro c h
      simp only [completions, raceRun]
      rcases raceStep_active c b h with h1 | h1
      · rw [if_neg (by simp [h1]), ih _ h1, Nat.zero_add]
      · have h2 := completions_of_completed rest _ h1
        rw [if_pos ⟨h1, by simp [h]⟩, h2.1, if_pos h2.2]

/-- C1: start from an `active` ticket with any prior flags and interleave the
opener's and the partner's confirm handlers in any order; whenever both
handlers have finished, the ticket's status has changed to `completed` at
exactly one step of the interleaving — there is no interleaving with two
finalizing transitions and none where the ticket fails to finalize. -/
theorem C1_confirm_race_single_completion (oc pc : Bool) (sched : List Bool)
    (h : bothDone (raceRun (raceInit oc pc) sched) = true) :
    completions (raceInit oc pc) sched = 1
      ∧ (raceRun (raceInit oc pc) sched).st = .completed := by
  have hinv := raceInv_run sched _ (raceInv_init oc pc)
  have hc := raceInv_done_completed _ hinv h
  have ha : (raceInit oc pc).st = .active := rfl
  have hcount := completions_of_active sched _ ha
  exact ⟨by rw [hcount, if_pos hc], hc⟩

/-- C1 witness: the race theorem applied to the schedule that runs the
opener's four store accesses first and then the partner's. -/
theorem C1_confirm_race_single_completion_witness :
    completions (raceInit false false)
        [true, true, true, true, false, false, false, false] = 1 :=
  (C1_confirm_race_single_completion false false
    [true, true, true, true, false, false, false, false] (by decide)).1

end VouchBot
